import Mathlib

/-!
# Verification of the ESP32 I2S audio subsystem (AudioManager)

Shallow embedding of the `AudioManager` implementation of this repository.
Two source variants are modelled:

* `Part010` — the single-port variant (`src/unnamed/part_010`, also mirrored by
  `src/audio_manager.cpp`): both modes share I2S port 0; the recording read
  path decodes every raw 32-bit word through a three-step fallback chain and
  runs the zero-read health monitor with automatic restart at a streak of 50.
* `Part011` — the dual-port variant (`src/unnamed/part_011`): recording uses
  I2S port 0 and playback port 1; the read path keeps only even-indexed
  (left-channel) slots and decodes each as a 24-bit MSB-aligned field.

Machine integers are modelled as `Nat`/`Int` with explicit `% 2^w` where the
C code relies on wrap-around or reinterpretation.  The results of the
`i2s_driver_install` / `i2s_set_pin` / `i2s_start` driver calls are supplied
by an environment record `I2SEnv`; the raw words delivered by `i2s_read` are
supplied as a `List Nat`.  Log statements, log-rate-limiting statics and the
wall-clock (`millis()`) have no effect on the verified state and are omitted.
-/

set_option autoImplicit false

namespace IoTAudio

/-- The `AudioMode` enum of `audio_manager.h`:
`AUDIO_MODE_NONE`, `AUDIO_MODE_PLAYBACK`, `AUDIO_MODE_RECORDING`. -/
inductive AudioMode
  | none
  | playback
  | recording
deriving DecidableEq, Repr

/-- An observable action on the underlying I2S driver: installing or
uninstalling the peripheral configuration of one mode
(`i2s_driver_install` / `i2s_driver_uninstall`). -/
inductive DriverEvent
  | install (m : AudioMode)
  | uninstall (m : AudioMode)
deriving DecidableEq, Repr

/-- Environment record holding the success/failure outcome of the three
fallible ESP-IDF driver calls made while entering a mode:
`i2s_driver_install`, `i2s_set_pin` and (recording only) `i2s_start`. -/
structure I2SEnv where
  installOk : Bool
  setPinOk : Bool
  startOk : Bool
deriving DecidableEq, Repr

/-- State of one `AudioManager` object together with the function-local
`static` counters of `readRecordedData` (which in C live for the whole
process, not for one recording session).  `installed` records which mode
configurations are currently installed on the shared I2S port; the pin
numbers held by the C object are wiring constants that never influence the
verified control logic and are not tracked. -/
structure AudioManagerState where
  currentMode : AudioMode
  currentSampleRate : Nat
  initDone : Bool
  installed : List AudioMode
  consecutiveZeroReads : Nat
  totalReads : Nat
  zeroReads : Nat
deriving DecidableEq, Repr

/-- `SAMPLE_RATE` from the configuration header (16 kHz). -/
def SAMPLE_RATE : Nat := 16000

/-- Clamp to the signed 16-bit range, as at the end of the sample loop:
`if (audioData > 32767) audioData = 32767; if (audioData < -32768) ...`. -/
def clamp16 (x : Int) : Int :=
  if x > 32767 then 32767 else if x < -32768 then -32768 else x

/-- Reinterpret the low 16 bits of a non-negative machine word as a signed
16-bit value: the C cast `(int16_t)` applied to an unsigned expression. -/
def toSigned16 (n : Nat) : Int :=
  if n % 65536 < 32768 then ((n % 65536 : Nat) : Int)
  else ((n % 65536 : Nat) : Int) - 65536

/-- The C cast `(int16_t)` applied to a signed 32-bit value: keep the low
16 bits and reinterpret as signed. -/
def intToInt16 (x : Int) : Int :=
  if x % 65536 < 32768 then x % 65536 else x % 65536 - 65536

/-- Sign extension of an 18-bit field, as in
`if (v & 0x20000) v |= 0xFFFC0000;` on an `int32_t` holding an 18-bit
value. -/
def signExt18 (u : Nat) : Int :=
  if 131072 ≤ u % 262144 then ((u % 262144 : Nat) : Int) - 262144
  else ((u % 262144 : Nat) : Int)

/-- Reinterpret a 32-bit machine word as a signed 32-bit value: the C cast
`(int32_t)` applied to a `uint32_t`. -/
def toInt32 (n : Nat) : Int :=
  if n % 4294967296 < 2147483648 then ((n % 4294967296 : Nat) : Int)
  else ((n % 4294967296 : Nat) : Int) - 4294967296

namespace Part010

/-- The "normal data" branch of the sample loop of
`AudioManager::readRecordedData` (`src/unnamed/part_010` lines 223-257):
method 1 takes the upper 16 bits; if that is zero, method 2 extracts the
18-bit field at bits 14-31 (logical shift right by 14), sign-extends from
bit 17 and arithmetically shifts right by 2 with a final `(int16_t)` cast;
if still zero, method 3 does the same with the low 18 bits; the result is
clamped to the signed 16-bit range.  Arithmetic right shift on a (possibly
negative) `int32_t` is floor division, i.e. `Int` division by `4`. -/
def decodeNormal (raw : Nat) : Int :=
  let a1 : Int := toSigned16 (raw / 65536)
  let a2 : Int := if a1 = 0 then intToInt16 (signExt18 (raw / 16384) / 4) else a1
  let a3 : Int := if a2 = 0 then signExt18 (raw % 262144) / 4 else a2
  clamp16 a3

/-- One iteration of the sample-conversion loop of
`AudioManager::readRecordedData` (`src/unnamed/part_010` lines 190-257):
raw word `0x00000000` decodes to `0`, the stuck-microphone signature
`0x00000001` decodes to its low bit, and every other word goes through the
fallback chain `decodeNormal`; all branches end in the 16-bit clamp. -/
def decodeSample32 (raw : Nat) : Int :=
  let w := raw % 4294967296
  if w = 0 then clamp16 0
  else if w = 1 then clamp16 (if w % 2 = 1 then 1 else 0)
  else decodeNormal w

/-- The decoding chain as worded by the specification (§4.2 steps 1-4):
upper 16 bits reinterpreted signed; if exactly zero, the 18-bit field at
bits 14-31 sign-extended from bit 17 and shifted right by 2; if also zero,
the low 18 bits likewise; the first non-zero step's result (or zero),
clamped to the signed 16-bit range. -/
def specChainDecode (raw : Nat) : Int :=
  let s1 : Int := toSigned16 (raw / 65536)
  if s1 ≠ 0 then clamp16 s1
  else
    let s2 : Int := signExt18 (raw / 16384) / 4
    if s2 ≠ 0 then clamp16 s2
    else clamp16 (signExt18 (raw % 262144) / 4)

/-- `AudioManager::shutdownI2S` (`src/unnamed/part_010` lines 523-529):
if a mode is active, uninstall the driver on the shared port and return to
`AUDIO_MODE_NONE`; otherwise do nothing.  Also returns the driver events
performed. -/
def shutdownI2S (s : AudioManagerState) : AudioManagerState × List DriverEvent :=
  if s.currentMode ≠ AudioMode.none then
    ({ s with installed := [], currentMode := AudioMode.none },
     [DriverEvent.uninstall s.currentMode])
  else (s, [])

/-- `AudioManager::reconfigureI2S` (`src/unnamed/part_010` lines 449-518):
tear down any active configuration, reject an invalid mode, install the
driver, bind the pins, and for recording explicitly start the clocks; on a
`i2s_set_pin` or `i2s_start` failure the freshly installed driver is
uninstalled again.  Returns the new state, the boolean result, and the
driver events performed. -/
def reconfigureI2S (s : AudioManagerState) (newMode : AudioMode) (rate : Nat)
    (env : I2SEnv) : AudioManagerState × Bool × List DriverEvent :=
  let p := if s.currentMode ≠ AudioMode.none then shutdownI2S s else (s, [])
  let s1 := p.1
  let ev0 := p.2
  if newMode = AudioMode.none then (s1, false, ev0)
  else if env.installOk = false then (s1, false, ev0)
  else
    let s2 := { s1 with installed := s1.installed ++ [newMode] }
    let ev1 := ev0 ++ [DriverEvent.install newMode]
    if env.setPinOk = false then
      ({ s2 with installed := [] }, false, ev1 ++ [DriverEvent.uninstall newMode])
    else if newMode = AudioMode.recording ∧ env.startOk = false then
      ({ s2 with installed := [] }, false, ev1 ++ [DriverEvent.uninstall newMode])
    else
      ({ s2 with currentMode := newMode, currentSampleRate := rate }, true, ev1)

/-- `AudioManager::startRecording` (`src/unnamed/part_010` lines 88-120):
fails if not initialized, otherwise reconfigures into recording mode (the
DMA-buffer flush, throwaway read and settle delay have no modelled state). -/
def startRecording (s : AudioManagerState) (rate : Nat) (env : I2SEnv) :
    AudioManagerState × Bool :=
  if s.initDone = false then (s, false)
  else
    let r := reconfigureI2S s AudioMode.recording rate env
    (r.1, r.2.1)

/-- `AudioManager::startPlayback` (`src/unnamed/part_010` lines 34-49). -/
def startPlayback (s : AudioManagerState) (rate : Nat) (env : I2SEnv) :
    AudioManagerState × Bool :=
  if s.initDone = false then (s, false)
  else
    let r := reconfigureI2S s AudioMode.playback rate env
    (r.1, r.2.1)

/-- `AudioManager::stopRecording` (`src/unnamed/part_010` lines 358-363). -/
def stopRecording (s : AudioManagerState) : AudioManagerState :=
  if s.currentMode = AudioMode.recording then (shutdownI2S s).1 else s

/-- `AudioManager::stopPlayback` (`src/unnamed/part_010` lines 74-83). -/
def stopPlayback (s : AudioManagerState) : AudioManagerState :=
  if s.currentMode = AudioMode.playback then (shutdownI2S s).1 else s

/-- `AudioManager::writePlaybackData` (`src/unnamed/part_010` lines 54-69):
returns 0 outside playback mode; otherwise returns what `i2s_write`
transferred (0 again if the write itself failed).  The controller state is
never modified. -/
def writePlaybackData (s : AudioManagerState) (length : Nat) (ioOk : Bool)
    (bytesWritten : Nat) : AudioManagerState × Nat :=
  if s.currentMode ≠ AudioMode.playback then (s, 0)
  else if ioOk = false then (s, 0)
  else (s, bytesWritten)

/-- The all-zero classification of one read
(`src/unnamed/part_010` lines 268-276): only the first 10 raw words (or
fewer, if the read was shorter) are inspected. -/
def allZerosCheck (frames : List Nat) : Bool :=
  (frames.take 10).all (fun w => w == 0)

/-- Result of one `readRecordedData` call: the state afterwards, the byte
count returned, the decoded PCM samples written to the caller's buffer, and
how many automatic stop+restart cycles were performed during the call. -/
structure ReadResult where
  state : AudioManagerState
  bytesReturned : Nat
  output : List Int
  restarts : Nat
deriving DecidableEq, Repr

/-- `AudioManager::readRecordedData` (`src/unnamed/part_010` lines 127-353).
`ioOk` is the `i2s_read` result and `frames` the raw 32-bit words it
delivered (`frames.length` = `bytesRead / 4`).  Outside recording mode, on
a failed read, or on an empty read the call returns 0 bytes and changes
nothing.  Otherwise every raw word is decoded, the health-monitor counters
are updated from the all-zero classification, and at a streak of exactly 50
a shutdown + reconfigure cycle runs, resetting the streak only if the
reconfiguration succeeded. -/
def readRecordedData (s : AudioManagerState) (ioOk : Bool) (frames : List Nat)
    (env : I2SEnv) : ReadResult :=
  if s.currentMode ≠ AudioMode.recording then ⟨s, 0, [], 0⟩
  else if ioOk = false then ⟨s, 0, [], 0⟩
  else if frames.length = 0 then ⟨s, 0, [], 0⟩
  else
    let out := frames.map decodeSample32
    let s1 := { s with totalReads := s.totalReads + 1 }
    if allZerosCheck frames then
      let s2 := { s1 with consecutiveZeroReads := s1.consecutiveZeroReads + 1,
                          zeroReads := s1.zeroReads + 1 }
      if s2.consecutiveZeroReads = 50 then
        if s2.currentMode = AudioMode.recording then
          let savedRate := s2.currentSampleRate
          let s3 := (shutdownI2S s2).1
          let r := reconfigureI2S s3 AudioMode.recording savedRate env
          let s4 := if r.2.1 then { r.1 with consecutiveZeroReads := 0 } else r.1
          ⟨s4, frames.length * 2, out, 1⟩
        else ⟨s2, frames.length * 2, out, 0⟩
      else ⟨s2, frames.length * 2, out, 0⟩
    else
      let s2 := if s1.consecutiveZeroReads > 0
                then { s1 with consecutiveZeroReads := 0 } else s1
      ⟨s2, frames.length * 2, out, 0⟩

/-- Run a sequence of `readRecordedData` calls (one polling loop), threading
the state and accumulating the number of automatic restarts. -/
def runReads (env : I2SEnv) : AudioManagerState → List (List Nat) →
    AudioManagerState × Nat
  | s, [] => (s, 0)
  | s, fr :: rest =>
    let r := readRecordedData s true fr env
    let p := runReads env r.state rest
    (p.1, r.restarts + p.2)

/-- One externally issued operation on the controller. -/
inductive AMOp
  | startRec (rate : Nat) (env : I2SEnv)
  | startPlay (rate : Nat) (env : I2SEnv)
  | stopRec
  | stopPlay
  | read (frames : List Nat) (env : I2SEnv)

/-- Apply one operation to the controller state. -/
def applyOp (s : AudioManagerState) : AMOp → AudioManagerState
  | AMOp.startRec rate env => (startRecording s rate env).1
  | AMOp.startPlay rate env => (startPlayback s rate env).1
  | AMOp.stopRec => stopRecording s
  | AMOp.stopPlay => stopPlayback s
  | AMOp.read frames env => (readRecordedData s true frames env).state

/-- Run a sequence of operations. -/
def run (s : AudioManagerState) : List AMOp → AudioManagerState
  | [] => s
  | op :: rest => run (applyOp s op) rest

/-- The driver configurations that should be installed in a given mode:
none when idle, exactly the active mode's configuration otherwise. -/
def installedFor : AudioMode → List AudioMode
  | AudioMode.none => []
  | m => [m]

/-- Well-formedness invariant relating the installed driver configurations
to the controller mode. -/
def goodState (s : AudioManagerState) : Prop :=
  s.installed = installedFor s.currentMode

/-- Process state at boot: zero-initialized statics, `init` not yet run. -/
def bootState : AudioManagerState :=
  { currentMode := AudioMode.none, currentSampleRate := 0, initDone := false,
    installed := [], consecutiveZeroReads := 0, totalReads := 0, zeroReads := 0 }

/-- `AudioManager::init` (`src/unnamed/part_010` lines 17-29): record the
pin wiring (not modelled), set `AUDIO_MODE_NONE`, mark initialized, and set
the default sample rate. -/
def init (s : AudioManagerState) : AudioManagerState × Bool :=
  ({ s with currentMode := AudioMode.none, initDone := true,
            currentSampleRate := SAMPLE_RATE }, true)

/-- State right after `init` at boot. -/
def initState : AudioManagerState := (init bootState).1

end Part010

namespace Part011

/-- One iteration of the left-channel conversion loop of
`AudioManager::readRecordedData` in the dual-port variant
(`src/unnamed/part_011` lines 244-249): reinterpret the raw word as
`int32_t`, arithmetically shift right by 8 (floor division by 256) to drop
to the 24-bit MSB-aligned field, and truncate with the `(int16_t)` cast. -/
def decodeSample24 (raw : Nat) : Int := intToInt16 (toInt32 raw / 256)

/-- The even-indexed (left-channel) slots of a stereo frame list, as
selected by the loop `for (size_t i = 0; i < samplesRead; i += 2)`
(`src/unnamed/part_011` line 241). -/
def leftSlots : List Nat → List Nat
  | [] => []
  | [x] => [x]
  | x :: _ :: rest => x :: leftSlots rest

/-- The PCM samples written to the caller's buffer by one successful read of
the dual-port variant (`src/unnamed/part_011` lines 240-250): only the
left-channel slots are decoded; right-channel slots are discarded. -/
def readOutput (frames : List Nat) : List Int :=
  (leftSlots frames).map decodeSample24

/-- The byte count returned by one successful read of the dual-port variant
(`src/unnamed/part_011` lines 344-345): `monoSampleCount * sizeof(int16_t)`. -/
def monoBytesReturned (frames : List Nat) : Nat := (leftSlots frames).length * 2

end Part011

/-- Environment in which every driver call succeeds. -/
def envOk : I2SEnv := ⟨true, true, true⟩

/-- Environment in which `i2s_driver_install` fails (so any reconfiguration
attempt, including the automatic restart, fails). -/
def envFail : I2SEnv := ⟨false, false, false⟩

/-- Whether `reconfigureI2S` into recording mode succeeds under the given
environment: driver install, pin binding and the explicit clock start must
all succeed. -/
def reconfigSucceeds (env : I2SEnv) : Bool :=
  env.installOk && env.setPinOk && env.startOk

/-- A controller state at the start of a fresh recording session: recording
mode active at 16 kHz, all health-monitor counters zero. -/
def sessionStart : AudioManagerState :=
  { currentMode := AudioMode.recording, currentSampleRate := 16000,
    initDone := true, installed := [AudioMode.recording],
    consecutiveZeroReads := 0, totalReads := 0, zeroReads := 0 }

/-- A controller state with playback mode active. -/
def playbackState : AudioManagerState :=
  { currentMode := AudioMode.playback, currentSampleRate := 16000,
    initDone := true, installed := [AudioMode.playback],
    consecutiveZeroReads := 0, totalReads := 0, zeroReads := 0 }

/-- A recording-session state part-way into a zero-read streak. -/
def streakState : AudioManagerState :=
  { sessionStart with consecutiveZeroReads := 12, totalReads := 20, zeroReads := 12 }

/-- A recording-session state one read away from the restart threshold. -/
def onesState : AudioManagerState :=
  { sessionStart with consecutiveZeroReads := 49, totalReads := 49, zeroReads := 49 }

end IoTAudio

namespace IoTAudio

/-- The clamp always lands in the signed 16-bit range. -/
theorem clamp16_bounds (x : Int) : -32768 ≤ clamp16 x ∧ clamp16 x ≤ 32767 := by
  unfold clamp16
  split_ifs <;> omega

/-- An 18-bit sign-extended field lies in [-2^17, 2^17). -/
theorem signExt18_bounds (u : Nat) :
    -131072 ≤ signExt18 u ∧ signExt18 u ≤ 131071 := by
  unfold signExt18
  split_ifs <;> omega

/-- The `(int16_t)` cast is the identity on values already in range. -/
theorem intToInt16_eq_self (x : Int) (h1 : -32768 ≤ x) (h2 : x ≤ 32767) :
    intToInt16 x = x := by
  unfold intToInt16
  split_ifs <;> omega

/-- An 18-bit sign-extended field arithmetically shifted right by 2 lies in
the signed 16-bit range, so the `(int16_t)` cast in method 2 is lossless. -/
theorem signExt18_shr2_bounds (u : Nat) :
    -32768 ≤ signExt18 u / 4 ∧ signExt18 u / 4 ≤ 32767 := by
  have h := signExt18_bounds u
  omega

/-- C3: for every raw 32-bit word other than 0 and 1, the decoder of
`readRecordedData` (part_010) computes exactly the ordered fallback chain of
the specification: upper-16 reinterpretation, then the bits-14-31 18-bit
field, then the low-18-bit field, first non-zero result clamped to the
signed 16-bit range. -/
theorem c3_fallback_chain (raw : Nat) (hlt : raw < 4294967296)
    (h0 : raw ≠ 0) (h1 : raw ≠ 1) :
    Part010.decodeSample32 raw = Part010.specChainDecode raw := by
  have hw : raw % 4294967296 = raw := Nat.mod_eq_of_lt hlt
  unfold Part010.decodeSample32 Part010.specChainDecode Part010.decodeNormal
  dsimp only
  rw [hw, if_neg h0, if_neg h1]
  by_cases hA : toSigned16 (raw / 65536) = 0
  · have hb := signExt18_shr2_bounds (raw / 16384)
    have hcast := intToInt16_eq_self _ hb.1 hb.2
    have h00 : intToInt16 0 = 0 := by decide
    by_cases hB : signExt18 (raw / 16384) / 4 = 0 <;>
      simp [hA, hB, hcast, h00]
  · simp [hA]

/-- Witness for `c3_fallback_chain` at the concrete raw word 0x12340000. -/
theorem c3_fallback_chain_witness :
    305397760 < 4294967296 ∧ 305397760 ≠ 0 ∧ 305397760 ≠ 1 ∧
    Part010.decodeSample32 305397760 = Part010.specChainDecode 305397760 :=
  ⟨by decide, by decide, by decide,
   c3_fallback_chain 305397760 (by decide) (by decide) (by decide)⟩

/-- C9: the decoder's output lies in [-32768, 32767] for every raw word,
whatever branch produced the intermediate value. -/
theorem c9_range_clamp (raw : Nat) :
    -32768 ≤ Part010.decodeSample32 raw ∧ Part010.decodeSample32 raw ≤ 32767 := by
  unfold Part010.decodeSample32 Part010.decodeNormal
  dsimp only
  split_ifs <;> exact clamp16_bounds _

/-- The conditional shutdown at the start of `reconfigureI2S` always leaves
the controller in `AUDIO_MODE_NONE`. -/
theorem preShutdown_mode (s : AudioManagerState) :
    ((if s.currentMode ≠ AudioMode.none then Part010.shutdownI2S s
      else (s, [])).1).currentMode = AudioMode.none := by
  by_cases hm : s.currentMode = AudioMode.none
  · simp [hm]
  · simp [hm, Part010.shutdownI2S]

/-- On a well-formed state, the conditional shutdown at the start of
`reconfigureI2S` leaves no driver configuration installed. -/
theorem preShutdown_installed (s : AudioManagerState) (h : Part010.goodState s) :
    ((if s.currentMode ≠ AudioMode.none then Part010.shutdownI2S s
      else (s, [])).1).installed = [] := by
  by_cases hm : s.currentMode = AudioMode.none
  · have hi : s.installed = [] := by
      unfold Part010.goodState at h
      rw [hm] at h
      simpa [Part010.installedFor] using h
    simp [hm, hi]
  · simp [hm, Part010.shutdownI2S]

/-- `shutdownI2S` preserves the well-formedness invariant. -/
theorem shutdown_good (s : AudioManagerState) (h : Part010.goodState s) :
    Part010.goodState (Part010.shutdownI2S s).1 := by
  unfold Part010.shutdownI2S
  split_ifs <;> simp_all [Part010.goodState, Part010.installedFor]

/-- `reconfigureI2S` preserves the well-formedness invariant. -/
theorem reconfig_good (s : AudioManagerState) (m : AudioMode) (rate : Nat)
    (env : I2SEnv) (h : Part010.goodState s) :
    Part010.goodState (Part010.reconfigureI2S s m rate env).1 := by
  have hmode := preShutdown_mode s
  have hinst := preShutdown_installed s h
  unfold Part010.reconfigureI2S
  dsimp only
  split_ifs with h1 h2 h3 h4 <;>
    cases m <;> simp_all [Part010.goodState, Part010.installedFor]

/-- `readRecordedData` preserves the well-formedness invariant. -/
theorem read_good (s : AudioManagerState) (ioOk : Bool) (frames : List Nat)
    (env : I2SEnv) (h : Part010.goodState s) :
    Part010.goodState (Part010.readRecordedData s ioOk frames env).state := by
  unfold Part010.readRecordedData
  dsimp only
  split_ifs
  · exact h
  · exact h
  · exact h
  · simpa [Part010.goodState] using
      reconfig_good _ _ _ _ (shutdown_good _ (by simpa [Part010.goodState] using h))
  · exact reconfig_good _ _ _ _ (shutdown_good _ (by simpa [Part010.goodState] using h))
  · simpa [Part010.goodState] using h
  · simpa [Part010.goodState] using h
  · simpa [Part010.goodState] using h
  · simpa [Part010.goodState] using h

/-- Every single operation preserves the well-formedness invariant. -/
theorem applyOp_good (s : AudioManagerState) (op : Part010.AMOp)
    (h : Part010.goodState s) : Part010.goodState (Part010.applyOp s op) := by
  cases op with
  | startRec rate env =>
    unfold Part010.applyOp Part010.startRecording
    dsimp only
    split_ifs
    · exact h
    · exact reconfig_good _ _ _ _ h
  | startPlay rate env =>
    unfold Part010.applyOp Part010.startPlayback
    dsimp only
    split_ifs
    · exact h
    · exact reconfig_good _ _ _ _ h
  | stopRec =>
    unfold Part010.applyOp Part010.stopRecording
    split_ifs
    · exact shutdown_good s h
    · exact h
  | stopPlay =>
    unfold Part010.applyOp Part010.stopPlayback
    split_ifs
    · exact shutdown_good s h
    · exact h
  | read frames env => exact read_good s true frames env h

/-- Any operation sequence preserves the well-formedness invariant. -/
theorem run_good (ops : List Part010.AMOp) :
    ∀ s : AudioManagerState, Part010.goodState s →
      Part010.goodState (Part010.run s ops) := by
  induction ops with
  | nil => intro s h; exact h
  | cons op rest ih => intro s h; exact ih _ (applyOp_good s op h)

/-- A well-formed state has at most one installed configuration. -/
theorem goodState_length (s : AudioManagerState) (h : Part010.goodState s) :
    s.installed.length ≤ 1 := by
  unfold Part010.goodState at h
  rw [h]
  cases s.currentMode <;> simp [Part010.installedFor]

/-- C5: over every operation sequence at most one mode's driver
configuration is ever installed, and entering a new mode while another is
active always begins with a full uninstall of the prior mode's
configuration, before any new installation. -/
theorem c5_mode_exclusivity :
    (∀ ops : List Part010.AMOp,
      ((Part010.run Part010.initState ops).installed).length ≤ 1) ∧
    (∀ (s : AudioManagerState) (m : AudioMode) (rate : Nat) (env : I2SEnv),
      s.currentMode ≠ AudioMode.none →
      ∃ tail, (Part010.reconfigureI2S s m rate env).2.2
          = DriverEvent.uninstall s.currentMode :: tail) := by
  constructor
  · intro ops
    exact goodState_length _ (run_good ops _ rfl)
  · intro s m rate env hm
    unfold Part010.reconfigureI2S Part010.shutdownI2S
    dsimp only
    simp only [if_pos hm]
    split_ifs <;> exact ⟨_, rfl⟩

/-- Witness for `c5_mode_exclusivity`: a record-then-play sequence keeps at
most one configuration installed, and reconfiguring out of an active
recording mode starts by uninstalling the recording configuration. -/
theorem c5_mode_exclusivity_witness :
    ((Part010.run Part010.initState
        [Part010.AMOp.startRec 16000 envOk,
         Part010.AMOp.startPlay 16000 envOk]).installed).length ≤ 1 ∧
    ∃ tail, (Part010.reconfigureI2S sessionStart AudioMode.playback 16000 envOk).2.2
        = DriverEvent.uninstall AudioMode.recording :: tail :=
  ⟨c5_mode_exclusivity.1 _,
   c5_mode_exclusivity.2 sessionStart AudioMode.playback 16000 envOk (by decide)⟩

/-- C6: whenever `reconfigureI2S` reports failure — invalid mode, driver
install failure, pin-binding failure, or clock-start failure — the
controller is left in `AUDIO_MODE_NONE`, never half-configured. -/
theorem c6_failure_idle (s : AudioManagerState) (m : AudioMode) (rate : Nat)
    (env : I2SEnv)
    (hf : (Part010.reconfigureI2S s m rate env).2.1 = false) :
    (Part010.reconfigureI2S s m rate env).1.currentMode = AudioMode.none := by
  have hmode := preShutdown_mode s
  unfold Part010.reconfigureI2S at hf ⊢
  dsimp only at hf ⊢
  split_ifs at hf ⊢ <;> simp_all

/-- Witness for `c6_failure_idle`: a failed switch from recording to
playback leaves the controller idle. -/
theorem c6_failure_idle_witness :
    (Part010.reconfigureI2S sessionStart AudioMode.playback 16000 envFail).2.1 = false ∧
    (Part010.reconfigureI2S sessionStart AudioMode.playback 16000 envFail).1.currentMode
      = AudioMode.none :=
  ⟨by decide,
   c6_failure_idle sessionStart AudioMode.playback 16000 envFail (by decide)⟩

/-- C7: `readRecordedData` outside recording mode returns 0 bytes, produces
no samples and changes nothing; `writePlaybackData` outside playback mode
returns 0 bytes and changes nothing. -/
theorem c7_mode_gating :
    (∀ (s : AudioManagerState) (ioOk : Bool) (frames : List Nat) (env : I2SEnv),
      s.currentMode = AudioMode.playback ∨ s.currentMode = AudioMode.none →
      Part010.readRecordedData s ioOk frames env = ⟨s, 0, [], 0⟩) ∧
    (∀ (s : AudioManagerState) (len : Nat) (ioOk : Bool) (bw : Nat),
      s.currentMode ≠ AudioMode.playback →
      Part010.writePlaybackData s len ioOk bw = (s, 0)) := by
  constructor
  · intro s ioOk frames env hmode
    have hne : s.currentMode ≠ AudioMode.recording := by
      rcases hmode with h | h <;> simp [h]
    unfold Part010.readRecordedData
    rw [if_pos hne]
  · intro s len ioOk bw hne
    unfold Part010.writePlaybackData
    rw [if_pos hne]

/-- Witness for `c7_mode_gating`: a read in playback mode and a write in
recording mode both transfer 0 bytes and leave the state untouched. -/
theorem c7_mode_gating_witness :
    Part010.readRecordedData playbackState true [5] envOk = ⟨playbackState, 0, [], 0⟩ ∧
    Part010.writePlaybackData sessionStart 4 true 4 = (sessionStart, 0) :=
  ⟨c7_mode_gating.1 playbackState true [5] envOk (Or.inl rfl),
   c7_mode_gating.2 sessionStart 4 true 4 (by decide)⟩

/-- A read in recording mode whose inspected 10-word prefix contains a
non-zero raw word takes the streak-reset branch: the state afterwards has
the streak at 0 and only `totalReads` advanced, with no restart. -/
theorem read_nonzero_eq (s : AudioManagerState) (frames : List Nat)
    (env : I2SEnv) (hm : s.currentMode = AudioMode.recording)
    (hne : frames ≠ []) (hw : ∃ w ∈ frames.take 10, w ≠ 0) :
    Part010.readRecordedData s true frames env =
      ⟨if s.consecutiveZeroReads > 0
         then { s with totalReads := s.totalReads + 1, consecutiveZeroReads := 0 }
         else { s with totalReads := s.totalReads + 1 },
       frames.length * 2, frames.map Part010.decodeSample32, 0⟩ := by
  have haz : Part010.allZerosCheck frames = false := by
    rcases hw with ⟨w, hwm, hwne⟩
    unfold Part010.allZerosCheck
    rw [List.all_eq_false]
    exact ⟨w, hwm, by simpa using hwne⟩
  have hlen : ¬ frames.length = 0 := by simpa [List.length_eq_zero] using hne
  unfold Part010.readRecordedData
  dsimp only
  rw [if_neg (by simp [hm] : ¬ s.currentMode ≠ AudioMode.recording)]
  rw [if_neg (by simp : ¬ (true = false))]
  rw [if_neg hlen]
  rw [if_neg (by simp [haz] : ¬ Part010.allZerosCheck frames = true)]

/-- C8 (amended): after any read in recording mode containing a non-zero
raw word among the inspected first 10 words, the consecutive-zero-read
counter is exactly 0, regardless of the preceding streak length. -/
theorem c8_streak_reset (s : AudioManagerState) (frames : List Nat)
    (env : I2SEnv) (hm : s.currentMode = AudioMode.recording)
    (hne : frames ≠ []) (hw : ∃ w ∈ frames.take 10, w ≠ 0) :
    (Part010.readRecordedData s true frames env).state.consecutiveZeroReads = 0 := by
  rw [read_nonzero_eq s frames env hm hne hw]
  dsimp only
  split_ifs with hz
  · rfl
  · simpa using Nat.le_zero.mp (Nat.not_lt.mp hz)

/-- Witness for `c8_streak_reset`: a streak of 12 is cleared by a single
read whose first word is non-zero. -/
theorem c8_streak_reset_witness :
    (Part010.readRecordedData streakState true [7] envOk).state.consecutiveZeroReads = 0 :=
  c8_streak_reset streakState [7] envOk rfl (by decide) ⟨7, by decide, by decide⟩

/-- C8 counterexample: a read of 11 words that is all-zero in its inspected
10-word prefix but has a non-zero word at index 10 is still classified
all-zero — the streak counter increments (12 → 13) instead of resetting to
0 as the claim states. -/
theorem c8_counterexample :
    (Part010.readRecordedData streakState true [0,0,0,0,0,0,0,0,0,0,1]
        envOk).state.consecutiveZeroReads = 13 ∧
    (Part010.readRecordedData streakState true [0,0,0,0,0,0,0,0,0,0,1]
        envOk).state.consecutiveZeroReads ≠ 0 := by
  decide

/-- A read in recording mode delivering only the stuck value 1 in its
inspected prefix resets the streak to 0, keeps recording mode, and performs
no restart. -/
theorem onesStep (s : AudioManagerState) (fr : List Nat) (env : I2SEnv)
    (hm : s.currentMode = AudioMode.recording) (hne : fr ≠ [])
    (hones : ∀ w ∈ fr.take 10, w = 1) :
    ∃ s', Part010.readRecordedData s true fr env
        = ⟨s', fr.length * 2, fr.map Part010.decodeSample32, 0⟩ ∧
      s'.currentMode = AudioMode.recording ∧ s'.consecutiveZeroReads = 0 := by
  have hw : ∃ w ∈ fr.take 10, w ≠ 0 := by
    rcases fr with _ | ⟨a, t⟩
    · exact absurd rfl hne
    · refine ⟨a, List.mem_cons_self a _, ?_⟩
      have h1 := hones a (List.mem_cons_self a _)
      omega
  refine ⟨_, read_nonzero_eq s fr env hm hne hw, ?_, ?_⟩
  · split_ifs <;> exact hm
  · split_ifs with hz
    · rfl
    · simpa using Nat.le_zero.mp (Nat.not_lt.mp hz)

/-- C10: a stream of reads that all deliver the stuck-microphone signature
0x00000001 in their inspected words is always classified non-zero: no
automatic restart is ever invoked, and the streak counter ends at 0. -/
theorem c10_stuck_ones :
    ∀ (inputs : List (List Nat)) (s : AudioManagerState) (env : I2SEnv),
      s.currentMode = AudioMode.recording →
      (∀ fr ∈ inputs, fr ≠ [] ∧ ∀ w ∈ fr.take 10, w = 1) →
      (Part010.runReads env s inputs).2 = 0 ∧
      (inputs = [] ∨
        (Part010.runReads env s inputs).1.consecutiveZeroReads = 0) := by
  intro inputs
  induction inputs with
  | nil =>
    intro s env hm hall
    exact ⟨rfl, Or.inl rfl⟩
  | cons fr rest ih =>
    intro s env hm hall
    have hfr := hall fr (List.mem_cons_self fr rest)
    obtain ⟨s', heq, hm', hz'⟩ := onesStep s fr env hm hfr.1 hfr.2
    have hallr : ∀ g ∈ rest, g ≠ [] ∧ ∀ w ∈ g.take 10, w = 1 :=
      fun g hg => hall g (List.mem_cons_of_mem _ hg)
    have ihh := ih s' env hm' hallr
    constructor
    · show (Part010.runReads env s (fr :: rest)).2 = 0
      simp only [Part010.runReads]
      rw [heq]
      dsimp only
      rw [ihh.1]
    · right
      show (Part010.runReads env s (fr :: rest)).1.consecutiveZeroReads = 0
      simp only [Part010.runReads]
      rw [heq]
      dsimp only
      rcases ihh.2 with hnil | hc
      · subst hnil
        simpa [Part010.runReads] using hz'
      · exact hc

/-- Witness for `c10_stuck_ones`: two stuck-at-1 reads from a session one
read short of the threshold leave the streak at 0 with no restart. -/
theorem c10_stuck_ones_witness :
    (Part010.runReads envOk onesState [[1,1,1],[1]]).2 = 0 ∧
    ([[1,1,1],[1]] = ([] : List (List Nat)) ∨
      (Part010.runReads envOk onesState [[1,1,1],[1]]).1.consecutiveZeroReads = 0) :=
  c10_stuck_ones [[1,1,1],[1]] onesState envOk (by decide) (by decide)

/-- C1 counterexample: 50 consecutive all-zero reads from a fresh session
trigger exactly one automatic restart, but when that restart fails the
streak counter stays at 50 — not 0 as the claim states. -/
theorem c1_counterexample :
    (Part010.runReads envFail sessionStart (List.replicate 50 [0,0,0,0])).2 = 1 ∧
    (Part010.runReads envFail sessionStart
        (List.replicate 50 [0,0,0,0])).1.consecutiveZeroReads = 50 ∧
    (Part010.runReads envFail sessionStart
        (List.replicate 50 [0,0,0,0])).1.consecutiveZeroReads ≠ 0 := by
  decide

/-- C1 (amended): 50 consecutive all-zero reads in one recording session
invoke exactly one stop+restart cycle at the same sample rate; immediately
afterwards the streak counter is 0 if the restart succeeded and remains 50
if it failed (the threshold test `== 50` then prevents re-triggering). -/
theorem c1_restart_once (env : I2SEnv) :
    (Part010.runReads env sessionStart (List.replicate 50 [0,0,0,0])).2 = 1 ∧
    (Part010.runReads env sessionStart
        (List.replicate 50 [0,0,0,0])).1.consecutiveZeroReads
      = (if reconfigSucceeds env then 0 else 50) ∧
    (Part010.runReads env sessionStart
        (List.replicate 50 [0,0,0,0])).1.currentMode
      = (if reconfigSucceeds env then AudioMode.recording else AudioMode.none) ∧
    (Part010.runReads env sessionStart
        (List.replicate 50 [0,0,0,0])).1.currentSampleRate = 16000 := by
  obtain ⟨i, p, st⟩ := env
  cases i <;> cases p <;> cases st <;> decide

/-- C2 counterexample: on the raw frames `[0x12340000, 0, 0x56780000, 0]`
the single-port variant outputs four samples (odd slots are decoded too)
and the dual-port variant — the only one that discards odd slots — outputs
`[0x3400, 0x7800]` via its shift-right-8 extraction; neither equals the
claimed `[0x1234, 0x5678]`. -/
theorem c2_counterexample :
    (Part010.readRecordedData sessionStart true
        [0x12340000, 0, 0x56780000, 0] envOk).output = [4660, 0, 22136, 0] ∧
    ([4660, 0, 22136, 0] : List Int) ≠ [4660, 22136] ∧
    Part011.readOutput [0x12340000, 0, 0x56780000, 0] = [13312, 30720] ∧
    ([13312, 30720] : List Int) ≠ [4660, 22136] := by
  decide

/-- C2 (amended): the two variants disagree.  The single-port variant
decodes every slot through the upper-16-bit chain, yielding
`[0x1234, 0, 0x5678, 0]` (8 bytes); the dual-port variant keeps only the
even-indexed left slots and decodes each by an arithmetic shift right by 8
truncated to 16 bits, yielding `[0x3400, 0x7800]` (4 bytes). -/
theorem c2_variant_outputs :
    ((Part010.readRecordedData sessionStart true
        [0x12340000, 0, 0x56780000, 0] envOk).output = [0x1234, 0, 0x5678, 0] ∧
     (Part010.readRecordedData sessionStart true
        [0x12340000, 0, 0x56780000, 0] envOk).bytesReturned = 8) ∧
    (Part011.readOutput [0x12340000, 0, 0x56780000, 0] = [0x3400, 0x7800] ∧
     Part011.monoBytesReturned [0x12340000, 0, 0x56780000, 0] = 4) := by
  decide

/-- C4 (code evaluation): the health-monitor counters are process-global
statics — after a session with 3 all-zero reads, stopping and starting a
new recording session leaves all three counters at 3, not 0, before the
first read of the new session. -/
theorem c4_counters_persist :
    (let sA := (Part010.startRecording Part010.initState 16000 envOk).1
     let sB := (Part010.runReads envOk sA (List.replicate 3 [0,0,0,0])).1
     let sC := (Part010.startRecording (Part010.stopRecording sB) 16000 envOk).1
     sC.currentMode = AudioMode.recording ∧
       sC.consecutiveZeroReads = 3 ∧ sC.totalReads = 3 ∧ sC.zeroReads = 3) := by
  decide

end IoTAudio
